import Mathlib

/-!
Shallow embedding of the model-routing and fallback-decision engine of the
repository (backend/src/agent): `configuration.py` (Configuration and
`from_runnable_config`), `openrouter_config.py` (OpenRouterConfig: the
FREE_MODELS catalog, `get_free_model_config`, `validate_api_key`) and
`llm_factory.py` (LLMFactory: `create_llm`, `_is_openrouter_model`,
`_create_openrouter_llm`, `_create_gemini_llm`,
`reset_openrouter_credits_flag`).

External provider-client constructors (`ChatOpenAI`,
`ChatGoogleGenerativeAI`) are modelled by oracles mapping the model
identifier they are invoked with to `none` (construction succeeds) or
`some msg` (construction raises an exception whose string form is `msg`).
Constructor invocations are recorded as events so that call counters
("the free-tier constructor was attempted exactly once") are observable.
The Python environment (`os.environ` / `os.getenv`) is an injected
function `String → Option String`.  Temperature is a pass-through value of
an arbitrary type `T` (the code never inspects it).
-/

/-- Decides whether the character list `sub` occurs at the start of `s`
(used to model Python substring containment). -/
def charListStarts : List Char → List Char → Bool
  | _, [] => true
  | [], _ :: _ => false
  | a :: as, b :: bs => a == b && charListStarts as bs

/-- Decides whether the character list `sub` occurs anywhere inside `s`. -/
def charListHas : List Char → List Char → Bool
  | [], sub => sub.isEmpty
  | a :: as, sub => charListStarts (a :: as) sub || charListHas as sub

/-- Python `sub in s` on strings: substring containment. -/
def containsSub (s sub : String) : Bool :=
  charListHas s.toList sub.toList

/-- Python `str.upper()` on the ASCII configuration-field names:
character-wise upper-casing. -/
def pyUpper (s : String) : String := String.mk (s.data.map Char.toUpper)

/-- Python `str.lower()` as applied to exception messages before
classification: character-wise lower-casing. -/
def pyLower (s : String) : String := String.mk (s.data.map Char.toLower)

/-- Python `str.strip()`: drop leading and trailing whitespace. -/
def pyStrip (s : String) : String :=
  String.mk (((s.data.dropWhile Char.isWhitespace).reverse.dropWhile
    Char.isWhitespace).reverse)

/-- Python truthiness of an `os.getenv` result: `None` and the empty
string are falsy, every other string is truthy. -/
def pyTruthy : Option String → Bool
  | none => false
  | some s => !(s == "")

/-- One catalog entry of `OpenRouterConfig.FREE_MODELS`
(openrouter_config.py): provider, underlying model identifier, context
length and free flag. -/
structure ProviderEntry where
  provider : String
  model : String
  context_length : Nat
  free : Bool
deriving DecidableEq, Repr

/-- The `OpenRouterConfig.FREE_MODELS` class variable (openrouter_config.py,
lines 22-53), as an association list keyed by logical model name. -/
def FREE_MODELS : List (String × ProviderEntry) :=
  [ ("gpt-oss-20b", ⟨"openai", "openai/gpt-oss-20b:free", 8192, true⟩),
    ("deepseek-chat-v3-0324", ⟨"deepseek", "deepseek/deepseek-chat-v3-0324:free", 8192, true⟩),
    ("deepseek-r1-0528", ⟨"deepseek", "deepseek/deepseek-r1-0528:free", 8192, true⟩),
    ("deepseek-r1", ⟨"deepseek", "deepseek/deepseek-r1:free", 8192, true⟩),
    ("deepseek-r1-distill-llama-70b", ⟨"deepseek", "deepseek/deepseek-r1-distill-llama-70b:free", 8192, true⟩) ]

/-- Python dict read `catalog[name]` / `name in catalog` on the free-model
catalog, as association-list lookup. -/
def catalogLookup (catalog : List (String × ProviderEntry)) (name : String) :
    Option ProviderEntry :=
  (catalog.find? (fun p => p.fst == name)).map (fun p => p.snd)

/-- `OpenRouterConfig.get_free_model_config` (openrouter_config.py, lines
55-60): raises `ValueError` when the model is absent from `FREE_MODELS`,
otherwise returns its entry.  The catalog is a parameter so that
catalog-independence properties can be stated. -/
def get_free_model_config (catalog : List (String × ProviderEntry))
    (model_name : String) : Except String ProviderEntry :=
  match catalogLookup catalog model_name with
  | none => Except.error ("Model " ++ model_name ++ " not found in free models")
  | some e => Except.ok e

/-- `OpenRouterConfig.validate_api_key` (openrouter_config.py, lines 62-72):
raises when the stored key is falsy or whitespace-only, otherwise returns
the stripped key. -/
def validate_api_key (api_key : Option String) : Except String String :=
  if !pyTruthy api_key then
    Except.error ("OPENROUTER_API_KEY environment variable is required")
  else if pyStrip (api_key.getD "") == "" then
    Except.error ("OPENROUTER_API_KEY environment variable cannot be empty")
  else
    Except.ok (pyStrip (api_key.getD ""))

/-- The `Configuration` pydantic model (configuration.py, lines 8-55) with
its built-in field defaults.  `gemini_api_key` is optional because its
`default_factory` is an environment lookup that may be absent. -/
structure Configuration where
  query_generator_model : String := "gpt-oss-20b"
  reflection_model : String := "gpt-oss-20b"
  answer_model : String := "gpt-oss-20b"
  use_openrouter : Bool := true
  gemini_api_key : Option String := none
  number_of_initial_queries : Int := 3
  max_research_loops : Int := 2
deriving DecidableEq, Repr

/-- The built-in default `Configuration` (no environment, no overrides). -/
def default_configuration : Configuration := {}

/-- A Python value as it can appear in the `config["configurable"]` dict
for the `Configuration` fields: a string, a boolean or an integer.
Environment values are always strings. -/
inductive PyValue where
  | str (s : String)
  | bool (b : Bool)
  | int (i : Int)
deriving DecidableEq, Repr

/-- The raw value of one field in `Configuration.from_runnable_config`'s
comprehension (configuration.py, lines 66-73):
`os.environ.get(name.upper(), configurable.get(name))` — the environment
value under the upper-cased field name when present (a string), otherwise
the configurable entry; `none` means the raw value was `None` and is
filtered out before `cls(**values)`.  Uniform over every field. -/
def rawFieldValue (env : String → Option String)
    (configurable : String → Option PyValue) (name : String) :
    Option PyValue :=
  match env (pyUpper name) with
  | some v => some (PyValue.str v)
  | none => configurable name

/-- Lax string-to-bool coercion applied by the pydantic validation layer
(external library, modelled like the client constructors): the
case-insensitive tokens true/t/yes/y/on/1 and false/f/no/n/off/0;
anything else is a validation error. -/
def pydanticBool (s : String) : Option Bool :=
  let l := pyLower s
  if l == "true" || l == "t" || l == "yes" || l == "y" || l == "on" || l == "1"
    then some true
  else if l == "false" || l == "f" || l == "no" || l == "n" || l == "off" || l == "0"
    then some false
  else none

/-- Value of a non-empty decimal digit sequence. -/
def digitsVal (cs : List Char) : Option Nat :=
  if cs.isEmpty then none
  else cs.foldl
    (fun acc c => acc.bind
      (fun n => if c.isDigit then some (10 * n + (c.toNat - 48)) else none))
    (some 0)

/-- Lax string-to-int coercion applied by the pydantic validation layer
(external library, modelled like the client constructors): surrounding
whitespace stripped, an optional sign followed by decimal digits;
anything else is a validation error. -/
def pydanticInt (s : String) : Option Int :=
  match (pyStrip s).data with
  | '-' :: rest => (digitsVal rest).map (fun n => -(Int.ofNat n))
  | '+' :: rest => (digitsVal rest).map Int.ofNat
  | cs => (digitsVal cs).map Int.ofNat

/-- Validation of a supplied raw value against a `str` field: only a
string is accepted. -/
def coerceStr : PyValue → Option String
  | PyValue.str s => some s
  | _ => none

/-- Validation of a supplied raw value against the `Optional[str]` field
`gemini_api_key`: a string is accepted (a raw `None` was already filtered
out by the comprehension). -/
def coerceOptStr (v : PyValue) : Option (Option String) :=
  (coerceStr v).map some

/-- Validation of a supplied raw value against the `bool` field
`use_openrouter`: a boolean directly, a string through the lax coercion,
the integers 0 and 1. -/
def coerceBool : PyValue → Option Bool
  | PyValue.bool b => some b
  | PyValue.str s => pydanticBool s
  | PyValue.int i => if i == 0 then some false
      else if i == 1 then some true else none

/-- Validation of a supplied raw value against an `int` field: an integer
directly, a string through the lax coercion; booleans are rejected. -/
def coerceInt : PyValue → Option Int
  | PyValue.int i => some i
  | PyValue.str s => pydanticInt s
  | PyValue.bool _ => none

/-- One field of `cls(**values)`: a field whose raw value was filtered out
keeps its built-in default without validation; a supplied raw value is
validated/coerced, a coercion failure failing the whole construction. -/
def fieldOr {α : Type} (coerce : PyValue → Option α) (raw : Option PyValue)
    (default : α) : Option α :=
  match raw with
  | none => some default
  | some v => coerce v

/-- `Configuration.from_runnable_config` (configuration.py, lines 57-75).
`env` is the injected process environment (strings) and `configurable` the
`config["configurable"]` dict.  Every field goes through the same
comprehension `os.environ.get(name.upper(), configurable.get(name))`, the
`None` raw values are filtered out, and `cls(**values)` validates the
supplied values (pydantic coercion for the bool and int fields) while
filtered-out fields keep their built-in defaults; a validation failure of
any supplied value fails the construction (`none` = ValidationError). -/
def from_runnable_config (env : String → Option String)
    (configurable : String → Option PyValue) : Option Configuration :=
  (fieldOr coerceStr (rawFieldValue env configurable "query_generator_model")
    "gpt-oss-20b").bind (fun q =>
  (fieldOr coerceStr (rawFieldValue env configurable "reflection_model")
    "gpt-oss-20b").bind (fun r =>
  (fieldOr coerceStr (rawFieldValue env configurable "answer_model")
    "gpt-oss-20b").bind (fun a =>
  (fieldOr coerceBool (rawFieldValue env configurable "use_openrouter")
    true).bind (fun u =>
  (fieldOr coerceOptStr (rawFieldValue env configurable "gemini_api_key")
    (env "GEMINI_API_KEY")).bind (fun g =>
  (fieldOr coerceInt (rawFieldValue env configurable "number_of_initial_queries")
    3).bind (fun nq =>
  (fieldOr coerceInt (rawFieldValue env configurable "max_research_loops")
    2).bind (fun mr =>
  some ⟨q, r, a, u, g, nq, mr⟩)))))))

/-- `Configuration.from_runnable_config`'s per-role model resolution inside
`LLMFactory.create_llm` (llm_factory.py, lines 48-55): the three recognized
model types map to the corresponding configuration fields; any other value
raises `ValueError`, modelled as `none`. -/
def resolve_requested_model (cfg : Configuration) (model_type : String) :
    Option String :=
  if model_type == "query_generator" then some cfg.query_generator_model
  else if model_type == "reflection" then some cfg.reflection_model
  else if model_type == "answer" then some cfg.answer_model
  else none

/-- A constructed provider client: either `ChatOpenAI` with the arguments of
`_create_openrouter_llm` (llm_factory.py, lines 130-140), or
`ChatGoogleGenerativeAI` with the arguments of `_create_gemini_llm`
(llm_factory.py, lines 149-154).  `T` is the pass-through temperature type. -/
inductive Client (T : Type) where
  | chatOpenAI (model : String) (api_key : String) (base_url : String)
      (temperature : T) (max_retries : Nat) (streaming : Bool)
      (request_timeout : Nat)
  | chatGoogleGenerativeAI (model : String) (temperature : T)
      (max_retries : Nat) (api_key : Option String)
deriving DecidableEq, Repr

/-- Observable events of one `create_llm` call: a catalog entry lookup by
`get_free_model_config` (with whether the name was found), an invocation of
the `ChatOpenAI` constructor (free tier), and an invocation of the
`ChatGoogleGenerativeAI` constructor (paid tier). -/
inductive Ev where
  | entryLookup (name : String) (found : Bool)
  | freeAttempt (model : String)
  | geminiAttempt (model : String)
deriving DecidableEq, Repr

/-- Exceptions escaping `create_llm`: the `ValueError` for an unrecognized
model type (llm_factory.py, line 55, raised before the try block), or an
exception raised by the fallback Gemini construction inside the except
handler, which nothing catches. -/
inductive EngineError where
  | unknownModelType (model_type : String)
  | constructionFailure (message : String)
deriving DecidableEq, Repr

/-- Behaviour of the external provider-client constructors, keyed by the
model identifier they are invoked with: `none` means construction succeeds,
`some msg` means it raises an exception with string form `msg`. -/
structure ProviderWorld where
  openai_outcome : String → Option String
  gemini_outcome : String → Option String

/-- The `LLMFactory` object state established by `__init__`
(llm_factory.py, lines 16-29): the configuration and the
`OpenRouterConfig.api_key` captured from the environment by its
`default_factory`. -/
structure LLMFactory where
  config : Configuration
  openrouter_api_key : Option String

/-- `LLMFactory.__init__` with environment `env`: stores the configuration
and captures `OPENROUTER_API_KEY` into `OpenRouterConfig.api_key`. -/
def LLMFactory.init (config : Configuration) (env : String → Option String) :
    LLMFactory :=
  { config := config, openrouter_api_key := env "OPENROUTER_API_KEY" }

/-- `LLMFactory._is_openrouter_model` (llm_factory.py, lines 103-107):
membership of the requested name in the free-model catalog. -/
def is_openrouter_model (catalog : List (String × ProviderEntry))
    (model_name : String) : Bool :=
  (catalogLookup catalog model_name).isSome

/-- `LLMFactory._create_gemini_llm` (llm_factory.py, lines 142-154): invoke
the `ChatGoogleGenerativeAI` constructor; returns the recorded constructor
invocation and either the client or the raised message. -/
def create_gemini_llm {T : Type} (w : ProviderWorld) (cfg : Configuration)
    (model_name : String) (temperature : T) (max_retries : Nat) :
    List Ev × Except String (Client T) :=
  ([Ev.geminiAttempt model_name],
    match w.gemini_outcome model_name with
    | some msg => Except.error msg
    | none =>
        Except.ok (Client.chatGoogleGenerativeAI model_name temperature
          max_retries cfg.gemini_api_key))

/-- `LLMFactory._create_openrouter_llm` (llm_factory.py, lines 109-140):
validate the stored API key, look up the catalog entry, then invoke the
`ChatOpenAI` constructor with the entry's underlying model identifier, the
OpenRouter base URL, streaming disabled and a 60-second request timeout. -/
def create_openrouter_llm {T : Type} (catalog : List (String × ProviderEntry))
    (w : ProviderWorld) (api_key : Option String) (model_name : String)
    (temperature : T) (max_retries : Nat) :
    List Ev × Except String (Client T) :=
  match validate_api_key api_key with
  | Except.error e => ([], Except.error e)
  | Except.ok key =>
    if key == "" then
      ([], Except.error
        ("OPENROUTER_API_KEY environment variable is required and cannot be empty"))
    else
      match get_free_model_config catalog model_name with
      | Except.error e => ([Ev.entryLookup model_name false], Except.error e)
      | Except.ok entry =>
        ([Ev.entryLookup model_name true, Ev.freeAttempt entry.model],
          match w.openai_outcome entry.model with
          | some msg => Except.error msg
          | none =>
              Except.ok (Client.chatOpenAI entry.model key
                "https://openrouter.ai/api/v1" temperature max_retries false 60))

/-- The body of the try block of `LLMFactory.create_llm` (llm_factory.py,
lines 61-83), after the role has been resolved to `model_name`: route to
the free tier when the name is a catalog member and `use_openrouter` is
set, guarding on credential presence and the skip flag; otherwise construct
the Gemini client directly with the requested name. -/
def create_llm_body {T : Type} (catalog : List (String × ProviderEntry))
    (w : ProviderWorld) (f : LLMFactory) (env : String → Option String)
    (skip : Bool) (model_name : String) (temperature : T)
    (max_retries : Nat) : List Ev × Except String (Client T) :=
  if is_openrouter_model catalog model_name && f.config.use_openrouter then
    if !pyTruthy (env "OPENROUTER_API_KEY") then
      create_gemini_llm w f.config "gemini-2.0-flash" temperature max_retries
    else if skip then
      create_gemini_llm w f.config "gemini-2.0-flash" temperature max_retries
    else
      create_openrouter_llm catalog w f.openrouter_api_key model_name
        temperature max_retries
  else
    create_gemini_llm w f.config model_name temperature max_retries

/-- Classification test of the except handler (llm_factory.py, line 87):
the lowercased message contains "insufficient credits" or "402". -/
def is_credits_message (msg : String) : Bool :=
  containsSub (pyLower msg) "insufficient credits" ||
    containsSub (pyLower msg) "402"

/-- Classification test of the except handler (llm_factory.py, line 93):
the lowercased message contains "authentication" or "401". -/
def is_auth_message (msg : String) : Bool :=
  containsSub (pyLower msg) "authentication" ||
    containsSub (pyLower msg) "401"

deriving instance DecidableEq for Except

/-- Result of one `create_llm` call: the returned client or escaping
exception, the `_skip_openrouter_due_to_credits` flag after the call, and
the recorded constructor-invocation and lookup events in order. -/
structure CallResult (T : Type) where
  result : Except EngineError (Client T)
  skip : Bool
  events : List Ev
deriving DecidableEq, Repr

/-- Lift the outcome of the fallback Gemini construction performed inside
the except handler: a raise there escapes `create_llm` uncaught. -/
def wrapFallback {T : Type} : Except String (Client T) →
    Except EngineError (Client T)
  | Except.ok c => Except.ok c
  | Except.error e => Except.error (EngineError.constructionFailure e)

/-- `LLMFactory.create_llm` (llm_factory.py, lines 31-101).  Resolve the
role to a model name (raising for unknown roles), run the try-block body,
and on any exception classify its lowercased message: insufficient-credits
messages set the skip flag and fall back to Gemini "gemini-2.0-flash";
authentication messages and all other messages fall back the same way
without touching the flag.  `skip` is the flag state before the call. -/
def create_llm {T : Type} (catalog : List (String × ProviderEntry))
    (w : ProviderWorld) (f : LLMFactory) (env : String → Option String)
    (skip : Bool) (model_type : String) (temperature : T)
    (max_retries : Nat) : CallResult T :=
  match resolve_requested_model f.config model_type with
  | none =>
      { result := Except.error (EngineError.unknownModelType model_type),
        skip := skip, events := [] }
  | some model_name =>
    match create_llm_body catalog w f env skip model_name temperature max_retries with
    | (evs, Except.ok c) => { result := Except.ok c, skip := skip, events := evs }
    | (evs, Except.error e) =>
      if is_credits_message e then
        let fb := create_gemini_llm w f.config "gemini-2.0-flash" temperature max_retries
        { result := wrapFallback fb.2, skip := true, events := evs ++ fb.1 }
      else if is_auth_message e then
        let fb := create_gemini_llm w f.config "gemini-2.0-flash" temperature max_retries
        { result := wrapFallback fb.2, skip := skip, events := evs ++ fb.1 }
      else
        let fb := create_gemini_llm w f.config "gemini-2.0-flash" temperature max_retries
        { result := wrapFallback fb.2, skip := skip, events := evs ++ fb.1 }

/-- `LLMFactory.reset_openrouter_credits_flag` (llm_factory.py, lines
156-162): delete the skip attribute when present, do nothing otherwise;
in either case the flag is clear afterwards. -/
def reset_openrouter_credits_flag (_flag : Bool) : Bool := false

/-- Number of free-tier (`ChatOpenAI`) constructor invocations recorded. -/
def countFreeAttempts (evs : List Ev) : Nat :=
  (evs.filter (fun e =>
    match e with
    | Ev.freeAttempt _ => true
    | _ => false)).length

/-- True when every catalog entry lookup in the trace found its entry. -/
def lookupsAllFound (evs : List Ev) : Bool :=
  evs.all (fun e =>
    match e with
    | Ev.entryLookup _ found => found
    | _ => true)

/-- True when the trace contains no free-tier event at all (no entry
lookup and no `ChatOpenAI` constructor invocation). -/
def noFreeTierEvents (evs : List Ev) : Bool :=
  evs.all (fun e =>
    match e with
    | Ev.entryLookup _ _ => false
    | Ev.freeAttempt _ => false
    | Ev.geminiAttempt _ => true)

/-! ## Helper lemmas -/

lemma upper_query_generator_model :
    pyUpper ("query_generator_model") = "QUERY_GENERATOR_MODEL" := by decide

lemma upper_reflection_model :
    pyUpper ("reflection_model") = "REFLECTION_MODEL" := by decide

lemma upper_answer_model :
    pyUpper ("answer_model") = "ANSWER_MODEL" := by decide

lemma upper_use_openrouter :
    pyUpper ("use_openrouter") = "USE_OPENROUTER" := by decide

lemma upper_gemini_api_key :
    pyUpper ("gemini_api_key") = "GEMINI_API_KEY" := by decide

lemma upper_number_of_initial_queries :
    pyUpper ("number_of_initial_queries") = "NUMBER_OF_INITIAL_QUERIES" := by
  decide

lemma upper_max_research_loops :
    pyUpper ("max_research_loops") = "MAX_RESEARCH_LOOPS" := by decide

lemma rawFieldValue_env_some {env : String → Option String}
    {n E : String} (configurable : String → Option PyValue)
    (h : env (pyUpper n) = some E) :
    rawFieldValue env configurable n = some (PyValue.str E) := by
  simp [rawFieldValue, h]

lemma rawFieldValue_no_env {env : String → Option String} {n : String}
    (configurable : String → Option PyValue) (h : env (pyUpper n) = none) :
    rawFieldValue env configurable n = configurable n := by
  simp [rawFieldValue, h]

lemma fieldOr_eq_of_none {α : Type} (coerce : PyValue → Option α)
    {raw : Option PyValue} (d : α) {v : α} (hraw : raw = none)
    (h : fieldOr coerce raw d = some v) : v = d := by
  subst hraw
  simp [fieldOr] at h
  exact h.symm

lemma fieldOr_eq_of_some {α : Type} (coerce : PyValue → Option α)
    {raw : Option PyValue} (d : α) {pv : PyValue} {v : α}
    (hraw : raw = some pv) (h : fieldOr coerce raw d = some v) :
    coerce pv = some v := by
  subst hraw
  simpa [fieldOr] using h

lemma from_runnable_config_fields (env : String → Option String)
    (configurable : String → Option PyValue) (cfg : Configuration)
    (h : from_runnable_config env configurable = some cfg) :
    fieldOr coerceStr (rawFieldValue env configurable "query_generator_model")
      "gpt-oss-20b" = some cfg.query_generator_model ∧
    fieldOr coerceStr (rawFieldValue env configurable "reflection_model")
      "gpt-oss-20b" = some cfg.reflection_model ∧
    fieldOr coerceStr (rawFieldValue env configurable "answer_model")
      "gpt-oss-20b" = some cfg.answer_model ∧
    fieldOr coerceBool (rawFieldValue env configurable "use_openrouter")
      true = some cfg.use_openrouter ∧
    fieldOr coerceOptStr (rawFieldValue env configurable "gemini_api_key")
      (env "GEMINI_API_KEY") = some cfg.gemini_api_key ∧
    fieldOr coerceInt (rawFieldValue env configurable "number_of_initial_queries")
      3 = some cfg.number_of_initial_queries ∧
    fieldOr coerceInt (rawFieldValue env configurable "max_research_loops")
      2 = some cfg.max_research_loops := by
  simp only [from_runnable_config, Option.bind_eq_some] at h
  obtain ⟨q, hq, r, hr, a, ha, u, hu, g, hg, nq, hnq, mr, hmr, hfin⟩ := h
  injection hfin with hfin
  subst hfin
  exact ⟨hq, hr, ha, hu, hg, hnq, hmr⟩

/-- The recognized set of model types in `create_llm`. -/
def recognized_role (model_type : String) : Bool :=
  model_type == "query_generator" || model_type == "reflection" ||
    model_type == "answer"

lemma resolve_recognized (cfg : Configuration) (role : String) :
    (resolve_requested_model cfg role).isSome = recognized_role role := by
  unfold resolve_requested_model recognized_role
  cases hq : role == "query_generator" <;>
    cases hr : role == "reflection" <;>
      cases ha : role == "answer" <;> simp [hq, hr, ha]

lemma validate_api_key_ok_ne (a : Option String) (k : String)
    (h : validate_api_key a = Except.ok k) : (k == "") = false := by
  unfold validate_api_key at h
  by_cases h1 : (!pyTruthy a) = true
  · rw [if_pos h1] at h
    exact absurd h (by simp)
  · rw [if_neg h1] at h
    by_cases h2 : (pyStrip (a.getD "") == "") = true
    · rw [if_pos h2] at h
      exact absurd h (by simp)
    · rw [if_neg h2] at h
      injection h with h
      subst h
      simpa using h2

lemma gemini_ok {T : Type} {w : ProviderWorld} {m : String}
    (cfg : Configuration) (t : T) (n : Nat)
    (hg : w.gemini_outcome m = none) :
    create_gemini_llm w cfg m t n =
      ([Ev.geminiAttempt m],
        Except.ok (Client.chatGoogleGenerativeAI m t n cfg.gemini_api_key)) := by
  simp [create_gemini_llm, hg]

lemma gemini_err {T : Type} {w : ProviderWorld} {m e : String}
    (cfg : Configuration) (t : T) (n : Nat)
    (hg : w.gemini_outcome m = some e) :
    create_gemini_llm w cfg m t n = ([Ev.geminiAttempt m], Except.error e) := by
  simp [create_gemini_llm, hg]

lemma body_not_free {T : Type} {catalog : List (String × ProviderEntry)}
    {f : LLMFactory} {m : String} (w : ProviderWorld)
    (env : String → Option String) (skip : Bool) (t : T) (n : Nat)
    (h : (is_openrouter_model catalog m && f.config.use_openrouter) = false) :
    create_llm_body catalog w f env skip m t n =
      create_gemini_llm w f.config m t n := by
  simp [create_llm_body, h]

lemma body_no_key {T : Type} {catalog : List (String × ProviderEntry)}
    {f : LLMFactory} {env : String → Option String} {m : String}
    (w : ProviderWorld) (skip : Bool) (t : T) (n : Nat)
    (hm : is_openrouter_model catalog m = true)
    (hu : f.config.use_openrouter = true)
    (hk : pyTruthy (env "OPENROUTER_API_KEY") = false) :
    create_llm_body catalog w f env skip m t n =
      create_gemini_llm w f.config "gemini-2.0-flash" t n := by
  simp [create_llm_body, hm, hu, hk]

lemma body_skip {T : Type} {catalog : List (String × ProviderEntry)}
    {f : LLMFactory} {env : String → Option String} {m : String}
    (w : ProviderWorld) (t : T) (n : Nat)
    (hm : is_openrouter_model catalog m = true)
    (hu : f.config.use_openrouter = true)
    (hk : pyTruthy (env "OPENROUTER_API_KEY") = true) :
    create_llm_body catalog w f env true m t n =
      create_gemini_llm w f.config "gemini-2.0-flash" t n := by
  simp [create_llm_body, hm, hu, hk]

lemma body_attempt {T : Type} {catalog : List (String × ProviderEntry)}
    {f : LLMFactory} {env : String → Option String} {m : String}
    (w : ProviderWorld) (t : T) (n : Nat)
    (hm : is_openrouter_model catalog m = true)
    (hu : f.config.use_openrouter = true)
    (hk : pyTruthy (env "OPENROUTER_API_KEY") = true) :
    create_llm_body catalog w f env false m t n =
      create_openrouter_llm catalog w f.openrouter_api_key m t n := by
  simp [create_llm_body, hm, hu, hk]

lemma openrouter_attempt {T : Type} {catalog : List (String × ProviderEntry)}
    {a : Option String} {m k : String} {entry : ProviderEntry}
    (w : ProviderWorld) (t : T) (n : Nat)
    (hv : validate_api_key a = Except.ok k)
    (hl : catalogLookup catalog m = some entry) :
    create_openrouter_llm catalog w a m t n =
      ([Ev.entryLookup m true, Ev.freeAttempt entry.model],
        match w.openai_outcome entry.model with
        | some msg => Except.error msg
        | none =>
            Except.ok (Client.chatOpenAI entry.model k
              "https://openrouter.ai/api/v1" t n false 60)) := by
  have hne := validate_api_key_ok_ne a k hv
  simp [create_openrouter_llm, hv, hne, get_free_model_config, hl]

lemma create_llm_unknown {T : Type} {f : LLMFactory} {role : String}
    (catalog : List (String × ProviderEntry)) (w : ProviderWorld)
    (env : String → Option String) (skip : Bool) (t : T) (n : Nat)
    (h : resolve_requested_model f.config role = none) :
    create_llm catalog w f env skip role t n =
      { result := Except.error (EngineError.unknownModelType role),
        skip := skip, events := [] } := by
  simp [create_llm, h]

lemma create_llm_of_body_ok {T : Type} {catalog : List (String × ProviderEntry)}
    {w : ProviderWorld} {f : LLMFactory} {env : String → Option String}
    {skip : Bool} {role m : String} {t : T} {n : Nat}
    {evs : List Ev} {c : Client T}
    (hres : resolve_requested_model f.config role = some m)
    (hb : create_llm_body catalog w f env skip m t n = (evs, Except.ok c)) :
    create_llm catalog w f env skip role t n =
      { result := Except.ok c, skip := skip, events := evs } := by
  simp [create_llm, hres, hb]

lemma create_llm_of_body_err_credits {T : Type}
    {catalog : List (String × ProviderEntry)} {w : ProviderWorld}
    {f : LLMFactory} {env : String → Option String} {skip : Bool}
    {role m e : String} {t : T} {n : Nat} {evs : List Ev}
    (hres : resolve_requested_model f.config role = some m)
    (hb : create_llm_body catalog w f env skip m t n = (evs, Except.error e))
    (hc : is_credits_message e = true) :
    create_llm catalog w f env skip role t n =
      { result :=
          wrapFallback (create_gemini_llm w f.config "gemini-2.0-flash" t n).2,
        skip := true,
        events := evs ++ [Ev.geminiAttempt "gemini-2.0-flash"] } := by
  simp [create_llm, hres, hb, hc, create_gemini_llm]

lemma create_llm_of_body_err_noncredits {T : Type}
    {catalog : List (String × ProviderEntry)} {w : ProviderWorld}
    {f : LLMFactory} {env : String → Option String} {skip : Bool}
    {role m e : String} {t : T} {n : Nat} {evs : List Ev}
    (hres : resolve_requested_model f.config role = some m)
    (hb : create_llm_body catalog w f env skip m t n = (evs, Except.error e))
    (hc : is_credits_message e = false) :
    create_llm catalog w f env skip role t n =
      { result :=
          wrapFallback (create_gemini_llm w f.config "gemini-2.0-flash" t n).2,
        skip := skip,
        events := evs ++ [Ev.geminiAttempt "gemini-2.0-flash"] } := by
  by_cases ha : is_auth_message e = true
  · simp [create_llm, hres, hb, hc, ha, create_gemini_llm]
  · simp [create_llm, hres, hb, hc, ha, create_gemini_llm]

lemma create_llm_not_unknown {T : Type}
    {catalog : List (String × ProviderEntry)} {w : ProviderWorld}
    {f : LLMFactory} {env : String → Option String} {skip : Bool}
    {role m : String} (t : T) (n : Nat) (r : String)
    (hres : resolve_requested_model f.config role = some m) :
    (create_llm catalog w f env skip role t n).result ≠
      Except.error (EngineError.unknownModelType r) := by
  rcases hb : create_llm_body catalog w f env skip m t n with ⟨evs, res⟩
  cases res with
  | ok c =>
    rw [create_llm_of_body_ok hres hb]
    simp
  | error e =>
    by_cases hc : is_credits_message e = true
    · rw [create_llm_of_body_err_credits hres hb hc]
      cases hg : w.gemini_outcome "gemini-2.0-flash" <;>
        simp [create_gemini_llm, hg, wrapFallback]
    · rw [create_llm_of_body_err_noncredits hres hb
        (Bool.eq_false_iff.mpr hc)]
      cases hg : w.gemini_outcome "gemini-2.0-flash" <;>
        simp [create_gemini_llm, hg, wrapFallback]

/-! ## C1: override precedence in Role Configuration construction -/

/-- C1 (counterexample): the claim that an explicit constructor/configurable
value overrides an injected environment value is false.  With built-in
default "gpt-oss-20b", environment value "env-model" under the upper-cased
field name and explicit configurable value "explicit-model", construction
yields the environment value, not the explicit value. -/
theorem config_env_beats_explicit_counterexample :
    (from_runnable_config
      (fun n => if n == "QUERY_GENERATOR_MODEL" then some ("env-model") else none)
      (fun n => if n == "query_generator_model"
        then some (PyValue.str ("explicit-model")) else none)).map
      (fun cfg => cfg.query_generator_model) = some ("env-model") ∧
    ("env-model" : String) ≠ "explicit-model" := by
  constructor
  · decide
  · decide

/-- C1 (amended): for every configuration field, construction applies
precedence environment value > explicit configurable value > built-in
default (the environment name derived by upper-casing the field, supplied
environment strings going through the field's validation/coercion): with
neither supplied the field keeps its default; an environment value always
wins, even when an explicit configurable value is also supplied; an
explicit value is used only when no environment value is present. -/
theorem from_runnable_config_precedence
    (env : String → Option String) (configurable : String → Option PyValue) :
    ((env "QUERY_GENERATOR_MODEL" = none →
        configurable "query_generator_model" = none →
        ∀ cfg, from_runnable_config env configurable = some cfg →
          cfg.query_generator_model = "gpt-oss-20b") ∧
      (∀ E, env "QUERY_GENERATOR_MODEL" = some E →
        ∀ cfg, from_runnable_config env configurable = some cfg →
          cfg.query_generator_model = E) ∧
      (∀ V s, env "QUERY_GENERATOR_MODEL" = none →
        configurable "query_generator_model" = some V →
        coerceStr V = some s →
        ∀ cfg, from_runnable_config env configurable = some cfg →
          cfg.query_generator_model = s)) ∧
    ((env "REFLECTION_MODEL" = none →
        configurable "reflection_model" = none →
        ∀ cfg, from_runnable_config env configurable = some cfg →
          cfg.reflection_model = "gpt-oss-20b") ∧
      (∀ E, env "REFLECTION_MODEL" = some E →
        ∀ cfg, from_runnable_config env configurable = some cfg →
          cfg.reflection_model = E) ∧
      (∀ V s, env "REFLECTION_MODEL" = none →
        configurable "reflection_model" = some V →
        coerceStr V = some s →
        ∀ cfg, from_runnable_config env configurable = some cfg →
          cfg.reflection_model = s)) ∧
    ((env "ANSWER_MODEL" = none →
        configurable "answer_model" = none →
        ∀ cfg, from_runnable_config env configurable = some cfg →
          cfg.answer_model = "gpt-oss-20b") ∧
      (∀ E, env "ANSWER_MODEL" = some E →
        ∀ cfg, from_runnable_config env configurable = some cfg →
          cfg.answer_model = E) ∧
      (∀ V s, env "ANSWER_MODEL" = none →
        configurable "answer_model" = some V →
        coerceStr V = some s →
        ∀ cfg, from_runnable_config env configurable = some cfg →
          cfg.answer_model = s)) ∧
    ((env "USE_OPENROUTER" = none →
        configurable "use_openrouter" = none →
        ∀ cfg, from_runnable_config env configurable = some cfg →
          cfg.use_openrouter = true) ∧
      (∀ E b, env "USE_OPENROUTER" = some E →
        pydanticBool E = some b →
        ∀ cfg, from_runnable_config env configurable = some cfg →
          cfg.use_openrouter = b) ∧
      (∀ V b, env "USE_OPENROUTER" = none →
        configurable "use_openrouter" = some V →
        coerceBool V = some b →
        ∀ cfg, from_runnable_config env configurable = some cfg →
          cfg.use_openrouter = b)) ∧
    ((env "GEMINI_API_KEY" = none →
        configurable "gemini_api_key" = none →
        ∀ cfg, from_runnable_config env configurable = some cfg →
          cfg.gemini_api_key = none) ∧
      (∀ E, env "GEMINI_API_KEY" = some E →
        ∀ cfg, from_runnable_config env configurable = some cfg →
          cfg.gemini_api_key = some E) ∧
      (∀ V s, env "GEMINI_API_KEY" = none →
        configurable "gemini_api_key" = some V →
        coerceStr V = some s →
        ∀ cfg, from_runnable_config env configurable = some cfg →
          cfg.gemini_api_key = some s)) ∧
    ((env "NUMBER_OF_INITIAL_QUERIES" = none →
        configurable "number_of_initial_queries" = none →
        ∀ cfg, from_runnable_config env configurable = some cfg →
          cfg.number_of_initial_queries = 3) ∧
      (∀ E i, env "NUMBER_OF_INITIAL_QUERIES" = some E →
        pydanticInt E = some i →
        ∀ cfg, from_runnable_config env configurable = some cfg →
          cfg.number_of_initial_queries = i) ∧
      (∀ V i, env "NUMBER_OF_INITIAL_QUERIES" = none →
        configurable "number_of_initial_queries" = some V →
        coerceInt V = some i →
        ∀ cfg, from_runnable_config env configurable = some cfg →
          cfg.number_of_initial_queries = i)) ∧
    ((env "MAX_RESEARCH_LOOPS" = none →
        configurable "max_research_loops" = none →
        ∀ cfg, from_runnable_config env configurable = some cfg →
          cfg.max_research_loops = 2) ∧
      (∀ E i, env "MAX_RESEARCH_LOOPS" = some E →
        pydanticInt E = some i →
        ∀ cfg, from_runnable_config env configurable = some cfg →
          cfg.max_research_loops = i) ∧
      (∀ V i, env "MAX_RESEARCH_LOOPS" = none →
        configurable "max_research_loops" = some V →
        coerceInt V = some i →
        ∀ cfg, from_runnable_config env configurable = some cfg →
          cfg.max_research_loops = i)) := by
  refine ⟨⟨?_, ?_, ?_⟩, ⟨?_, ?_, ?_⟩, ⟨?_, ?_, ?_⟩, ⟨?_, ?_, ?_⟩,
    ⟨?_, ?_, ?_⟩, ⟨?_, ?_, ?_⟩, ⟨?_, ?_, ?_⟩⟩
  · intro he hc cfg hcfg
    have hx := (from_runnable_config_fields env configurable cfg hcfg).1
    have hraw : rawFieldValue env configurable "query_generator_model" = none := by
      rw [rawFieldValue_no_env configurable (upper_query_generator_model ▸ he)]
      exact hc
    exact fieldOr_eq_of_none coerceStr "gpt-oss-20b" hraw hx
  · intro E he cfg hcfg
    have hx := (from_runnable_config_fields env configurable cfg hcfg).1
    have hco := fieldOr_eq_of_some coerceStr "gpt-oss-20b"
      (rawFieldValue_env_some configurable (upper_query_generator_model ▸ he)) hx
    have hco' : some E = some cfg.query_generator_model := hco
    injection hco' with h
    exact h.symm
  · intro V s he hc hcs cfg hcfg
    have hx := (from_runnable_config_fields env configurable cfg hcfg).1
    have hraw : rawFieldValue env configurable "query_generator_model" = some V := by
      rw [rawFieldValue_no_env configurable (upper_query_generator_model ▸ he)]
      exact hc
    have hco := fieldOr_eq_of_some coerceStr "gpt-oss-20b" hraw hx
    rw [hcs] at hco
    injection hco with h
    exact h.symm
  · intro he hc cfg hcfg
    have hx := (from_runnable_config_fields env configurable cfg hcfg).2.1
    have hraw : rawFieldValue env configurable "reflection_model" = none := by
      rw [rawFieldValue_no_env configurable (upper_reflection_model ▸ he)]
      exact hc
    exact fieldOr_eq_of_none coerceStr "gpt-oss-20b" hraw hx
  · intro E he cfg hcfg
    have hx := (from_runnable_config_fields env configurable cfg hcfg).2.1
    have hco := fieldOr_eq_of_some coerceStr "gpt-oss-20b"
      (rawFieldValue_env_some configurable (upper_reflection_model ▸ he)) hx
    have hco' : some E = some cfg.reflection_model := hco
    injection hco' with h
    exact h.symm
  · intro V s he hc hcs cfg hcfg
    have hx := (from_runnable_config_fields env configurable cfg hcfg).2.1
    have hraw : rawFieldValue env configurable "reflection_model" = some V := by
      rw [rawFieldValue_no_env configurable (upper_reflection_model ▸ he)]
      exact hc
    have hco := fieldOr_eq_of_some coerceStr "gpt-oss-20b" hraw hx
    rw [hcs] at hco
    injection hco with h
    exact h.symm
  · intro he hc cfg hcfg
    have hx := (from_runnable_config_fields env configurable cfg hcfg).2.2.1
    have hraw : rawFieldValue env configurable "answer_model" = none := by
      rw [rawFieldValue_no_env configurable (upper_answer_model ▸ he)]
      exact hc
    exact fieldOr_eq_of_none coerceStr "gpt-oss-20b" hraw hx
  · intro E he cfg hcfg
    have hx := (from_runnable_config_fields env configurable cfg hcfg).2.2.1
    have hco := fieldOr_eq_of_some coerceStr "gpt-oss-20b"
      (rawFieldValue_env_some configurable (upper_answer_model ▸ he)) hx
    have hco' : some E = some cfg.answer_model := hco
    injection hco' with h
    exact h.symm
  · intro V s he hc hcs cfg hcfg
    have hx := (from_runnable_config_fields env configurable cfg hcfg).2.2.1
    have hraw : rawFieldValue env configurable "answer_model" = some V := by
      rw [rawFieldValue_no_env configurable (upper_answer_model ▸ he)]
      exact hc
    have hco := fieldOr_eq_of_some coerceStr "gpt-oss-20b" hraw hx
    rw [hcs] at hco
    injection hco with h
    exact h.symm
  · intro he hc cfg hcfg
    have hx := (from_runnable_config_fields env configurable cfg hcfg).2.2.2.1
    have hraw : rawFieldValue env configurable "use_openrouter" = none := by
      rw [rawFieldValue_no_env configurable (upper_use_openrouter ▸ he)]
      exact hc
    exact fieldOr_eq_of_none coerceBool true hraw hx
  · intro E b he hp cfg hcfg
    have hx := (from_runnable_config_fields env configurable cfg hcfg).2.2.2.1
    have hco := fieldOr_eq_of_some coerceBool true
      (rawFieldValue_env_some configurable (upper_use_openrouter ▸ he)) hx
    have hco' : pydanticBool E = some cfg.use_openrouter := hco
    rw [hp] at hco'
    injection hco' with h
    exact h.symm
  · intro V b he hc hcb cfg hcfg
    have hx := (from_runnable_config_fields env configurable cfg hcfg).2.2.2.1
    have hraw : rawFieldValue env configurable "use_openrouter" = some V := by
      rw [rawFieldValue_no_env configurable (upper_use_openrouter ▸ he)]
      exact hc
    have hco := fieldOr_eq_of_some coerceBool true hraw hx
    rw [hcb] at hco
    injection hco with h
    exact h.symm
  · intro he hc cfg hcfg
    have hx := (from_runnable_config_fields env configurable cfg hcfg).2.2.2.2.1
    have hraw : rawFieldValue env configurable "gemini_api_key" = none := by
      rw [rawFieldValue_no_env configurable (upper_gemini_api_key ▸ he)]
      exact hc
    have hd := fieldOr_eq_of_none coerceOptStr (env "GEMINI_API_KEY") hraw hx
    rw [hd, he]
  · intro E he cfg hcfg
    have hx := (from_runnable_config_fields env configurable cfg hcfg).2.2.2.2.1
    have hco := fieldOr_eq_of_some coerceOptStr (env "GEMINI_API_KEY")
      (rawFieldValue_env_some configurable (upper_gemini_api_key ▸ he)) hx
    have hco' : some (some E) = some cfg.gemini_api_key := hco
    injection hco' with h
    exact h.symm
  · intro V s he hc hcs cfg hcfg
    have hx := (from_runnable_config_fields env configurable cfg hcfg).2.2.2.2.1
    have hraw : rawFieldValue env configurable "gemini_api_key" = some V := by
      rw [rawFieldValue_no_env configurable (upper_gemini_api_key ▸ he)]
      exact hc
    have hco := fieldOr_eq_of_some coerceOptStr (env "GEMINI_API_KEY") hraw hx
    have hco' : (coerceStr V).map some = some cfg.gemini_api_key := hco
    rw [hcs] at hco'
    have hco'' : some (some s) = some cfg.gemini_api_key := hco'
    injection hco'' with h
    exact h.symm
  · intro he hc cfg hcfg
    have hx := (from_runnable_config_fields env configurable cfg hcfg).2.2.2.2.2.1
    have hraw : rawFieldValue env configurable "number_of_initial_queries" = none := by
      rw [rawFieldValue_no_env configurable (upper_number_of_initial_queries ▸ he)]
      exact hc
    exact fieldOr_eq_of_none coerceInt 3 hraw hx
  · intro E i he hp cfg hcfg
    have hx := (from_runnable_config_fields env configurable cfg hcfg).2.2.2.2.2.1
    have hco := fieldOr_eq_of_some coerceInt 3
      (rawFieldValue_env_some configurable (upper_number_of_initial_queries ▸ he)) hx
    have hco' : pydanticInt E = some cfg.number_of_initial_queries := hco
    rw [hp] at hco'
    injection hco' with h
    exact h.symm
  · intro V i he hc hci cfg hcfg
    have hx := (from_runnable_config_fields env configurable cfg hcfg).2.2.2.2.2.1
    have hraw : rawFieldValue env configurable "number_of_initial_queries" = some V := by
      rw [rawFieldValue_no_env configurable (upper_number_of_initial_queries ▸ he)]
      exact hc
    have hco := fieldOr_eq_of_some coerceInt 3 hraw hx
    rw [hci] at hco
    injection hco with h
    exact h.symm
  · intro he hc cfg hcfg
    have hx := (from_runnable_config_fields env configurable cfg hcfg).2.2.2.2.2.2
    have hraw : rawFieldValue env configurable "max_research_loops" = none := by
      rw [rawFieldValue_no_env configurable (upper_max_research_loops ▸ he)]
      exact hc
    exact fieldOr_eq_of_none coerceInt 2 hraw hx
  · intro E i he hp cfg hcfg
    have hx := (from_runnable_config_fields env configurable cfg hcfg).2.2.2.2.2.2
    have hco := fieldOr_eq_of_some coerceInt 2
      (rawFieldValue_env_some configurable (upper_max_research_loops ▸ he)) hx
    have hco' : pydanticInt E = some cfg.max_research_loops := hco
    rw [hp] at hco'
    injection hco' with h
    exact h.symm
  · intro V i he hc hci cfg hcfg
    have hx := (from_runnable_config_fields env configurable cfg hcfg).2.2.2.2.2.2
    have hraw : rawFieldValue env configurable "max_research_loops" = some V := by
      rw [rawFieldValue_no_env configurable (upper_max_research_loops ▸ he)]
      exact hc
    have hco := fieldOr_eq_of_some coerceInt 2 hraw hx
    rw [hci] at hco
    injection hco with h
    exact h.symm

/-- Witness for `from_runnable_config_precedence`: a concrete environment
carrying USE_OPENROUTER="false" (beating an explicit configurable `true`)
and NUMBER_OF_INITIAL_QUERIES="7", with a configurable carrying explicit
values for max_research_loops and answer_model; each precedence mode
produces the stated field value. -/
theorem from_runnable_config_precedence_witness :
    (from_runnable_config
      (fun n => if n == "USE_OPENROUTER" then some ("false")
        else if n == "NUMBER_OF_INITIAL_QUERIES" then some ("7") else none)
      (fun n => if n == "use_openrouter" then some (PyValue.bool true)
        else if n == "max_research_loops" then some (PyValue.int 5)
        else if n == "answer_model" then some (PyValue.str ("ans-explicit"))
        else none)).map (fun cfg => cfg.use_openrouter) = some false ∧
    (from_runnable_config
      (fun n => if n == "USE_OPENROUTER" then some ("false")
        else if n == "NUMBER_OF_INITIAL_QUERIES" then some ("7") else none)
      (fun n => if n == "use_openrouter" then some (PyValue.bool true)
        else if n == "max_research_loops" then some (PyValue.int 5)
        else if n == "answer_model" then some (PyValue.str ("ans-explicit"))
        else none)).map (fun cfg => cfg.number_of_initial_queries) = some 7 ∧
    (from_runnable_config
      (fun n => if n == "USE_OPENROUTER" then some ("false")
        else if n == "NUMBER_OF_INITIAL_QUERIES" then some ("7") else none)
      (fun n => if n == "use_openrouter" then some (PyValue.bool true)
        else if n == "max_research_loops" then some (PyValue.int 5)
        else if n == "answer_model" then some (PyValue.str ("ans-explicit"))
        else none)).map (fun cfg => cfg.max_research_loops) = some 5 ∧
    (from_runnable_config
      (fun n => if n == "USE_OPENROUTER" then some ("false")
        else if n == "NUMBER_OF_INITIAL_QUERIES" then some ("7") else none)
      (fun n => if n == "use_openrouter" then some (PyValue.bool true)
        else if n == "max_research_loops" then some (PyValue.int 5)
        else if n == "answer_model" then some (PyValue.str ("ans-explicit"))
        else none)).map (fun cfg => cfg.answer_model) = some ("ans-explicit") ∧
    (from_runnable_config
      (fun n => if n == "USE_OPENROUTER" then some ("false")
        else if n == "NUMBER_OF_INITIAL_QUERIES" then some ("7") else none)
      (fun n => if n == "use_openrouter" then some (PyValue.bool true)
        else if n == "max_research_loops" then some (PyValue.int 5)
        else if n == "answer_model" then some (PyValue.str ("ans-explicit"))
        else none)).map (fun cfg => cfg.query_generator_model) =
      some ("gpt-oss-20b") := by
  have hcfg : from_runnable_config
      (fun n => if n == "USE_OPENROUTER" then some ("false")
        else if n == "NUMBER_OF_INITIAL_QUERIES" then some ("7") else none)
      (fun n => if n == "use_openrouter" then some (PyValue.bool true)
        else if n == "max_research_loops" then some (PyValue.int 5)
        else if n == "answer_model" then some (PyValue.str ("ans-explicit"))
        else none) =
      some (Configuration.mk "gpt-oss-20b" "gpt-oss-20b" "ans-explicit"
        false none 7 5) := by
    decide
  obtain ⟨hb1, hb2, hb3, hb4, hb5, hb6, hb7⟩ := from_runnable_config_precedence
    (fun n => if n == "USE_OPENROUTER" then some ("false")
      else if n == "NUMBER_OF_INITIAL_QUERIES" then some ("7") else none)
    (fun n => if n == "use_openrouter" then some (PyValue.bool true)
      else if n == "max_research_loops" then some (PyValue.int 5)
      else if n == "answer_model" then some (PyValue.str ("ans-explicit"))
      else none)
  refine ⟨?_, ?_, ?_, ?_, ?_⟩
  · rw [hcfg]
    exact congrArg some (hb4.2.1 "false" false (by decide) (by decide) _ hcfg)
  · rw [hcfg]
    exact congrArg some (hb6.2.1 "7" 7 (by decide) (by decide) _ hcfg)
  · rw [hcfg]
    exact congrArg some (hb7.2.2 (PyValue.int 5) 5 (by decide) (by decide)
      (by decide) _ hcfg)
  · rw [hcfg]
    exact congrArg some (hb3.2.2 (PyValue.str ("ans-explicit")) "ans-explicit"
      (by decide) (by decide) (by decide) _ hcfg)
  · rw [hcfg]
    exact congrArg some (hb1.1 (by decide) (by decide) _ hcfg)
/-! ## C5: role recognition and model resolution -/

/-- C5 (counterexample): resolution for a recognized role need not return a
non-empty string.  With the environment injecting the empty string under
QUERY_GENERATOR_MODEL, construction stores "" and resolving
"query_generator" returns the empty string. -/
theorem resolve_nonempty_counterexample :
    (from_runnable_config
      (fun n => if n == "QUERY_GENERATOR_MODEL" then some ("") else none)
      (fun _ => none)).map
      (fun cfg => resolve_requested_model cfg "query_generator") =
      some (some ("")) := by
  decide

/-- C5 (amended): for every configuration, resolution succeeds exactly on
the three recognized roles, returning the configured model-name string
(equal to the non-empty built-in default "gpt-oss-20b" under the default
configuration); `create_llm` fails with the unknown-model-type error
exactly for roles outside the recognized set. -/
theorem resolve_role_amended {T : Type}
    (catalog : List (String × ProviderEntry)) (w : ProviderWorld)
    (f : LLMFactory) (env : String → Option String) (skip : Bool)
    (role : String) (t : T) (n : Nat) :
    ((resolve_requested_model f.config role).isSome = recognized_role role) ∧
    (recognized_role role = true →
      resolve_requested_model default_configuration role = some ("gpt-oss-20b")) ∧
    ((create_llm catalog w f env skip role t n).result =
        Except.error (EngineError.unknownModelType role) ↔
      recognized_role role = false) := by
  refine ⟨resolve_recognized f.config role, ?_, ?_, ?_⟩
  · intro h
    unfold recognized_role at h
    unfold resolve_requested_model default_configuration
    cases hq : role == "query_generator" <;>
      cases hr : role == "reflection" <;>
        cases ha : role == "answer" <;> simp_all
  · intro h
    by_contra hrec
    have hrec' : recognized_role role = true := by
      cases hx : recognized_role role
      · exact absurd hx hrec
      · rfl
    have hs : (resolve_requested_model f.config role).isSome = true := by
      rw [resolve_recognized f.config role, hrec']
    rcases Option.isSome_iff_exists.mp hs with ⟨m, hm⟩
    exact create_llm_not_unknown t n role hm h
  · intro h
    have hs : (resolve_requested_model f.config role).isSome = false := by
      rw [resolve_recognized f.config role, h]
    have hn : resolve_requested_model f.config role = none :=
      Option.not_isSome_iff_eq_none.mp (by simp [hs])
    rw [create_llm_unknown catalog w env skip t n hn]

/-- Witness for `resolve_role_amended`: under the default configuration the
recognized role "answer" resolves to the non-empty default name, and
`create_llm` for the unrecognized role "bogus" fails with the
unknown-model-type error. -/
theorem resolve_role_amended_witness :
    resolve_requested_model default_configuration "answer" = some ("gpt-oss-20b") ∧
    (create_llm FREE_MODELS ⟨fun _ => none, fun _ => none⟩
        ⟨default_configuration, none⟩ (fun _ => none) false "bogus" () 2).result =
      Except.error (EngineError.unknownModelType "bogus") := by
  constructor
  · exact (resolve_role_amended FREE_MODELS ⟨fun _ => none, fun _ => none⟩
      ⟨default_configuration, none⟩ (fun _ => none) false "answer" () 2).2.1
      (by decide)
  · exact (resolve_role_amended FREE_MODELS ⟨fun _ => none, fun _ => none⟩
      ⟨default_configuration, none⟩ (fun _ => none) false "bogus" () 2).2.2.mpr
      (by decide)

/-! ## C4: catalog noninterference when the free-tier preference is off -/

/-- C4: if `use_openrouter` is false, the outcome of `create_llm` (returned
value, flag and recorded events) is the same for any two catalog contents,
and its trace contains no free-tier event at all (no catalog entry lookup
and no free-tier constructor invocation), whether or not the requested
name is a catalog member. -/
theorem create_llm_catalog_noninterference {T : Type}
    (catalog1 catalog2 : List (String × ProviderEntry)) (w : ProviderWorld)
    (f : LLMFactory) (env : String → Option String) (skip : Bool)
    (role : String) (t : T) (n : Nat)
    (h : f.config.use_openrouter = false) :
    create_llm catalog1 w f env skip role t n =
      create_llm catalog2 w f env skip role t n ∧
    noFreeTierEvents (create_llm catalog1 w f env skip role t n).events = true := by
  rcases hres : resolve_requested_model f.config role with _ | m
  · rw [create_llm_unknown catalog1 w env skip t n hres,
      create_llm_unknown catalog2 w env skip t n hres]
    simp [noFreeTierEvents]
  · have hb1 : create_llm_body catalog1 w f env skip m t n =
        create_gemini_llm w f.config m t n :=
      body_not_free w env skip t n (by simp [h])
    have hb2 : create_llm_body catalog2 w f env skip m t n =
        create_gemini_llm w f.config m t n :=
      body_not_free w env skip t n (by simp [h])
    cases hg : w.gemini_outcome m with
    | none =>
      have hgem := gemini_ok f.config t n hg
      rw [create_llm_of_body_ok hres (hb1.trans hgem),
        create_llm_of_body_ok hres (hb2.trans hgem)]
      simp [noFreeTierEvents]
    | some e =>
      have hgem := gemini_err f.config t n hg
      by_cases hc : is_credits_message e = true
      · rw [create_llm_of_body_err_credits hres (hb1.trans hgem) hc,
          create_llm_of_body_err_credits hres (hb2.trans hgem) hc]
        simp [noFreeTierEvents]
      · rw [create_llm_of_body_err_noncredits hres (hb1.trans hgem)
            (Bool.eq_false_iff.mpr hc),
          create_llm_of_body_err_noncredits hres (hb2.trans hgem)
            (Bool.eq_false_iff.mpr hc)]
        simp [noFreeTierEvents]

/-- Witness for `create_llm_catalog_noninterference`: with the preference
off, the full catalog and the empty catalog produce identical outcomes for
a request whose name is a member of the full catalog. -/
theorem create_llm_catalog_noninterference_witness :
    create_llm FREE_MODELS ⟨fun _ => none, fun _ => none⟩
        ⟨{ use_openrouter := false }, none⟩ (fun _ => none) false
        "query_generator" () 2 =
      create_llm [] ⟨fun _ => none, fun _ => none⟩
        ⟨{ use_openrouter := false }, none⟩ (fun _ => none) false
        "query_generator" () 2 ∧
    noFreeTierEvents (create_llm FREE_MODELS ⟨fun _ => none, fun _ => none⟩
        ⟨{ use_openrouter := false }, none⟩ (fun _ => none) false
        "query_generator" () 2).events = true :=
  create_llm_catalog_noninterference FREE_MODELS []
    ⟨fun _ => none, fun _ => none⟩ ⟨{ use_openrouter := false }, none⟩
    (fun _ => none) false "query_generator" () 2 rfl

/-! ## C6: absent free-tier credential degrades to the default paid model -/

/-- C6: for a free-tier-eligible request (catalog member, preference on),
if the free-tier credential is absent (falsy) in the environment,
`create_llm` returns the Gemini client bound to the fixed default model
"gemini-2.0-flash" — not the requested name — without any free-tier event,
without throwing and without touching the skip flag. -/
theorem no_credential_paid_fallback {T : Type}
    (catalog : List (String × ProviderEntry)) (w : ProviderWorld)
    (f : LLMFactory) (env : String → Option String) (skip : Bool)
    (role m : String) (t : T) (n : Nat)
    (hres : resolve_requested_model f.config role = some m)
    (hm : is_openrouter_model catalog m = true)
    (hu : f.config.use_openrouter = true)
    (hk : pyTruthy (env "OPENROUTER_API_KEY") = false)
    (hg : w.gemini_outcome "gemini-2.0-flash" = none) :
    create_llm catalog w f env skip role t n =
      { result := Except.ok (Client.chatGoogleGenerativeAI "gemini-2.0-flash"
          t n f.config.gemini_api_key),
        skip := skip,
        events := [Ev.geminiAttempt "gemini-2.0-flash"] } := by
  have hb : create_llm_body catalog w f env skip m t n =
      ([Ev.geminiAttempt "gemini-2.0-flash"],
        Except.ok (Client.chatGoogleGenerativeAI "gemini-2.0-flash" t n
          f.config.gemini_api_key)) :=
    (body_no_key w skip t n hm hu hk).trans (gemini_ok f.config t n hg)
  exact create_llm_of_body_ok hres hb

/-- Witness for `no_credential_paid_fallback`: default configuration, the
requested name "gpt-oss-20b" is a catalog member, the environment is empty,
and Gemini construction succeeds. -/
theorem no_credential_paid_fallback_witness :
    create_llm FREE_MODELS ⟨fun _ => none, fun _ => none⟩
        ⟨default_configuration, none⟩ (fun _ => none) false
        "query_generator" () 2 =
      { result := Except.ok (Client.chatGoogleGenerativeAI "gemini-2.0-flash"
          () 2 none),
        skip := false,
        events := [Ev.geminiAttempt "gemini-2.0-flash"] } :=
  no_credential_paid_fallback FREE_MODELS ⟨fun _ => none, fun _ => none⟩
    ⟨default_configuration, none⟩ (fun _ => none) false
    "query_generator" "gpt-oss-20b" () 2 (by decide) (by decide) rfl rfl rfl

/-! ## C2: a paid-tier construction failure is not fatal in the code -/

/-- C2 (counterexample): for a role whose resolved model "gemini-1.5-pro"
is not a catalog member, the direct Gemini construction throws ("boom"),
yet `create_llm` does not fail: the exception is caught and a second,
fallback Gemini construction on the default model returns a client, so the
call succeeds — contradicting the claim that a paid-provider construction
failure is an unconditional fatal error with no further fallback. -/
theorem paid_failure_counterexample :
    (create_llm FREE_MODELS
      ⟨fun _ => none,
        fun m => if m == "gemini-1.5-pro" then some ("boom") else none⟩
      ⟨{ query_generator_model := "gemini-1.5-pro" }, none⟩
      (fun _ => none) false "query_generator" () 2) =
      { result := Except.ok (Client.chatGoogleGenerativeAI "gemini-2.0-flash"
          () 2 none),
        skip := false,
        events := [Ev.geminiAttempt "gemini-1.5-pro",
          Ev.geminiAttempt "gemini-2.0-flash"] } := by
  decide

/-- C2 (amended): for a role not routed free-tier, `create_llm` constructs
the Gemini client directly with the requested name; if that construction
throws, the exception is caught and classified — setting the skip flag
when the message classifies as insufficient credits — and a fallback
Gemini construction on the fixed default model is attempted; the call
fails, surfacing that construction failure, only when the fallback itself
throws. -/
theorem paid_failure_fallback {T : Type}
    (catalog : List (String × ProviderEntry)) (w : ProviderWorld)
    (f : LLMFactory) (env : String → Option String) (skip : Bool)
    (role m e : String) (t : T) (n : Nat)
    (hres : resolve_requested_model f.config role = some m)
    (hnf : (is_openrouter_model catalog m && f.config.use_openrouter) = false)
    (he : w.gemini_outcome m = some e) :
    ((w.gemini_outcome "gemini-2.0-flash" = none →
      (create_llm catalog w f env skip role t n).result =
        Except.ok (Client.chatGoogleGenerativeAI "gemini-2.0-flash" t n
          f.config.gemini_api_key)) ∧
    (∀ e2, w.gemini_outcome "gemini-2.0-flash" = some e2 →
      (create_llm catalog w f env skip role t n).result =
        Except.error (EngineError.constructionFailure e2)) ∧
    (create_llm catalog w f env skip role t n).skip =
      (if is_credits_message e = true then true else skip)) := by
  have hb : create_llm_body catalog w f env skip m t n =
      ([Ev.geminiAttempt m], Except.error e) :=
    (body_not_free w env skip t n hnf).trans (gemini_err f.config t n he)
  by_cases hc : is_credits_message e = true
  · rw [create_llm_of_body_err_credits hres hb hc]
    refine ⟨?_, ?_, ?_⟩
    · intro hg
      rw [gemini_ok f.config t n hg]
      rfl
    · intro e2 hg
      rw [gemini_err f.config t n hg]
      rfl
    · simp [hc]
  · have hc' : is_credits_message e = false := Bool.eq_false_iff.mpr hc
    rw [create_llm_of_body_err_noncredits hres hb hc']
    refine ⟨?_, ?_, ?_⟩
    · intro hg
      rw [gemini_ok f.config t n hg]
      rfl
    · intro e2 hg
      rw [gemini_err f.config t n hg]
      rfl
    · simp [hc']

/-- Witness for `paid_failure_fallback`: with the requested non-catalog
name "gemini-1.5-pro" throwing "boom" and the default-model construction
succeeding, the call returns the default-model Gemini client and leaves
the flag clear. -/
theorem paid_failure_fallback_witness :
    (create_llm FREE_MODELS
      ⟨fun _ => none,
        fun m => if m == "gemini-1.5-pro" then some ("boom") else none⟩
      ⟨{ query_generator_model := "gemini-1.5-pro" }, none⟩
      (fun _ => none) false "query_generator" () 2).result =
      Except.ok (Client.chatGoogleGenerativeAI "gemini-2.0-flash" () 2 none) :=
  (paid_failure_fallback FREE_MODELS
    ⟨fun _ => none,
      fun m => if m == "gemini-1.5-pro" then some ("boom") else none⟩
    ⟨{ query_generator_model := "gemini-1.5-pro" }, none⟩
    (fun _ => none) false "query_generator" "gemini-1.5-pro" "boom" () 2
    (by decide) (by decide) (by decide)).1 (by decide)

/-! ## C9: the UnknownModel branch is unreachable -/

lemma openrouter_validate_err {T : Type}
    {a : Option String} {e : String}
    (catalog : List (String × ProviderEntry)) (w : ProviderWorld)
    (m : String) (t : T) (n : Nat)
    (hv : validate_api_key a = Except.error e) :
    create_openrouter_llm catalog w a m t n = ([], Except.error e) := by
  simp [create_openrouter_llm, hv]

lemma lookupsAllFound_of_body {T : Type}
    {catalog : List (String × ProviderEntry)} {w : ProviderWorld}
    {f : LLMFactory} {env : String → Option String} {skip : Bool}
    {role m : String} {t : T} {n : Nat} {evs : List Ev}
    {res : Except String (Client T)}
    (hres : resolve_requested_model f.config role = some m)
    (hb : create_llm_body catalog w f env skip m t n = (evs, res))
    (hevs : lookupsAllFound evs = true) :
    lookupsAllFound (create_llm catalog w f env skip role t n).events = true := by
  have hevs' : evs.all (fun e =>
      match e with
      | Ev.entryLookup _ found => found
      | _ => true) = true := hevs
  cases res with
  | ok c =>
    rw [create_llm_of_body_ok hres hb]
    exact hevs
  | error e =>
    by_cases hc : is_credits_message e = true
    · rw [create_llm_of_body_err_credits hres hb hc]
      simp [lookupsAllFound, List.all_append, hevs']
    · rw [create_llm_of_body_err_noncredits hres hb (Bool.eq_false_iff.mpr hc)]
      simp [lookupsAllFound, List.all_append, hevs']

/-- C9: every catalog entry lookup performed during `create_llm` finds its
entry — the free-tier entry lookup (whose failure would be the
UnknownModel error) is only reached after the catalog membership test for
the same name succeeded, so that error is never raised, for every role,
configuration, environment, catalog, flag state and provider behaviour. -/
theorem unknown_model_unreachable {T : Type}
    (catalog : List (String × ProviderEntry)) (w : ProviderWorld)
    (f : LLMFactory) (env : String → Option String) (skip : Bool)
    (role : String) (t : T) (n : Nat) :
    lookupsAllFound (create_llm catalog w f env skip role t n).events = true := by
  rcases hres : resolve_requested_model f.config role with _ | m
  · rw [create_llm_unknown catalog w env skip t n hres]
    simp [lookupsAllFound]
  · by_cases hfree : (is_openrouter_model catalog m && f.config.use_openrouter) = true
    · have hand := hfree
      rw [Bool.and_eq_true] at hand
      have hm : is_openrouter_model catalog m = true := hand.1
      have hu : f.config.use_openrouter = true := hand.2
      by_cases hk : pyTruthy (env "OPENROUTER_API_KEY") = true
      · cases skip with
        | true =>
          cases hg : w.gemini_outcome "gemini-2.0-flash" with
          | none =>
            exact lookupsAllFound_of_body hres
              ((body_skip w t n hm hu hk).trans (gemini_ok f.config t n hg))
              (by simp [lookupsAllFound])
          | some e =>
            exact lookupsAllFound_of_body hres
              ((body_skip w t n hm hu hk).trans (gemini_err f.config t n hg))
              (by simp [lookupsAllFound])
        | false =>
          rcases hval : validate_api_key f.openrouter_api_key with e | k
          · exact lookupsAllFound_of_body hres
              ((body_attempt w t n hm hu hk).trans
                (openrouter_validate_err catalog w m t n hval))
              (by simp [lookupsAllFound])
          · have hsome : (catalogLookup catalog m).isSome = true := by
              simpa [is_openrouter_model] using hm
            rcases Option.isSome_iff_exists.mp hsome with ⟨entry, hl⟩
            cases ho : w.openai_outcome entry.model with
            | none =>
              have hb : create_llm_body catalog w f env false m t n =
                  ([Ev.entryLookup m true, Ev.freeAttempt entry.model],
                    Except.ok (Client.chatOpenAI entry.model k
                      "https://openrouter.ai/api/v1" t n false 60)) := by
                rw [body_attempt w t n hm hu hk,
                  openrouter_attempt w t n hval hl, ho]
              exact lookupsAllFound_of_body hres hb (by simp [lookupsAllFound])
            | some msg =>
              have hb : create_llm_body catalog w f env false m t n =
                  ([Ev.entryLookup m true, Ev.freeAttempt entry.model],
                    Except.error msg) := by
                rw [body_attempt w t n hm hu hk,
                  openrouter_attempt w t n hval hl, ho]
              exact lookupsAllFound_of_body hres hb (by simp [lookupsAllFound])
      · have hk' : pyTruthy (env "OPENROUTER_API_KEY") = false :=
          Bool.eq_false_iff.mpr hk
        cases hg : w.gemini_outcome "gemini-2.0-flash" with
        | none =>
          exact lookupsAllFound_of_body hres
            ((body_no_key w skip t n hm hu hk').trans (gemini_ok f.config t n hg))
            (by simp [lookupsAllFound])
        | some e =>
          exact lookupsAllFound_of_body hres
            ((body_no_key w skip t n hm hu hk').trans (gemini_err f.config t n hg))
            (by simp [lookupsAllFound])
    · have hfree' : (is_openrouter_model catalog m && f.config.use_openrouter) = false :=
        Bool.eq_false_iff.mpr hfree
      cases hg : w.gemini_outcome m with
      | none =>
        exact lookupsAllFound_of_body hres
          ((body_not_free w env skip t n hfree').trans (gemini_ok f.config t n hg))
          (by simp [lookupsAllFound])
      | some e =>
        exact lookupsAllFound_of_body hres
          ((body_not_free w env skip t n hfree').trans (gemini_err f.config t n hg))
          (by simp [lookupsAllFound])

/-! ## C7: the skip flag is mutated only on insufficient-credits failures -/

/-- C7: in any `create_llm` call the skip flag either stays unchanged or is
set to `true`, and setting it happens exactly when the try-block body
raised a message classified as insufficient credits; a set flag is never
cleared by `create_llm` (only `reset_openrouter_credits_flag` clears it,
unconditionally); and every body failure not classified as insufficient
credits — authentication failures included — falls back to the default
paid model while leaving the flag unchanged. -/
theorem skip_flag_frame {T : Type}
    (catalog : List (String × ProviderEntry)) (w : ProviderWorld)
    (f : LLMFactory) (env : String → Option String) (skip : Bool)
    (role : String) (t : T) (n : Nat) :
    ((create_llm catalog w f env skip role t n).skip = skip ∨
      ((create_llm catalog w f env skip role t n).skip = true ∧
        ∃ m e, resolve_requested_model f.config role = some m ∧
          (create_llm_body catalog w f env skip m t n).2 = Except.error e ∧
          is_credits_message e = true)) ∧
    (skip = true → (create_llm catalog w f env skip role t n).skip = true) ∧
    (∀ b, reset_openrouter_credits_flag b = false) ∧
    (∀ m e, resolve_requested_model f.config role = some m →
      (create_llm_body catalog w f env skip m t n).2 = Except.error e →
      is_credits_message e = false →
      (create_llm catalog w f env skip role t n).skip = skip ∧
      (create_llm catalog w f env skip role t n).result =
        wrapFallback (create_gemini_llm w f.config "gemini-2.0-flash" t n).2) := by
  have hmain : (create_llm catalog w f env skip role t n).skip = skip ∨
      ((create_llm catalog w f env skip role t n).skip = true ∧
        ∃ m e, resolve_requested_model f.config role = some m ∧
          (create_llm_body catalog w f env skip m t n).2 = Except.error e ∧
          is_credits_message e = true) := by
    rcases hres : resolve_requested_model f.config role with _ | m
    · left
      rw [create_llm_unknown catalog w env skip t n hres]
    · rcases hb : create_llm_body catalog w f env skip m t n with ⟨evs, res⟩
      cases res with
      | ok c =>
        left
        rw [create_llm_of_body_ok hres hb]
      | error e =>
        by_cases hc : is_credits_message e = true
        · right
          refine ⟨?_, m, e, hres ▸ rfl, ?_, hc⟩
          · rw [create_llm_of_body_err_credits hres hb hc]
          · rw [hb]
        · left
          rw [create_llm_of_body_err_noncredits hres hb (Bool.eq_false_iff.mpr hc)]
  refine ⟨hmain, ?_, fun _ => rfl, ?_⟩
  · intro hs
    rcases hmain with h | h
    · rw [h, hs]
    · exact h.1
  · intro m e hres hberr hc
    rcases hb : create_llm_body catalog w f env skip m t n with ⟨evs, res⟩
    rw [hb] at hberr
    cases res with
    | ok c => exact absurd hberr (by simp)
    | error e0 =>
      have he0 : e0 = e := by
        injection hberr
      subst he0
      rw [create_llm_of_body_err_noncredits hres hb hc]
      exact ⟨rfl, rfl⟩

/-- Witness for `skip_flag_frame`: a free-tier authentication failure
("401 authentication failed") falls back to the default paid client and
leaves the clear flag clear, and reset clears a set flag. -/
theorem skip_flag_frame_witness :
    (create_llm FREE_MODELS
        ⟨fun _ => some ("401 authentication failed"), fun _ => none⟩
        ⟨default_configuration, some ("sk-test")⟩
        (fun x => if x == "OPENROUTER_API_KEY" then some ("sk-test") else none)
        false "answer" () 2).skip = false ∧
    reset_openrouter_credits_flag true = false := by
  constructor
  · exact ((skip_flag_frame FREE_MODELS
      ⟨fun _ => some ("401 authentication failed"), fun _ => none⟩
      ⟨default_configuration, some ("sk-test")⟩
      (fun x => if x == "OPENROUTER_API_KEY" then some ("sk-test") else none)
      false "answer" () 2).2.2.2 "gpt-oss-20b" "401 authentication failed"
      (by decide) (by decide) (by decide)).1
  · exact (skip_flag_frame FREE_MODELS
      ⟨fun _ => some ("401 authentication failed"), fun _ => none⟩
      ⟨default_configuration, some ("sk-test")⟩
      (fun x => if x == "OPENROUTER_API_KEY" then some ("sk-test") else none)
      false "answer" () 2).2.2.1 true

/-! ## C3: an insufficient-credits failure suspends the free tier -/

/-- C3: an insufficient-credits free-tier construction failure makes the
first `create_llm` call set the skip flag and return the paid fallback
client bound to "gemini-2.0-flash"; a subsequent call on the same engine
state, for the same or a different role, performs no free-tier constructor
invocation and returns a paid (Gemini) client directly, with the flag
still set. -/
theorem credits_failure_suspends {T : Type}
    (catalog : List (String × ProviderEntry)) (w : ProviderWorld)
    (f : LLMFactory) (env : String → Option String)
    (role1 role2 m1 m2 k msg : String) (entry : ProviderEntry)
    (t1 t2 : T) (n1 n2 : Nat)
    (hres1 : resolve_requested_model f.config role1 = some m1)
    (hl : catalogLookup catalog m1 = some entry)
    (hu : f.config.use_openrouter = true)
    (hk : pyTruthy (env "OPENROUTER_API_KEY") = true)
    (hv : validate_api_key f.openrouter_api_key = Except.ok k)
    (hfail : w.openai_outcome entry.model = some msg)
    (hc : is_credits_message msg = true)
    (hgem : ∀ x, w.gemini_outcome x = none)
    (hres2 : resolve_requested_model f.config role2 = some m2) :
    (create_llm catalog w f env false role1 t1 n1).skip = true ∧
    (create_llm catalog w f env false role1 t1 n1).result =
      Except.ok (Client.chatGoogleGenerativeAI "gemini-2.0-flash" t1 n1
        f.config.gemini_api_key) ∧
    countFreeAttempts (create_llm catalog w f env
      (create_llm catalog w f env false role1 t1 n1).skip role2 t2 n2).events = 0 ∧
    (create_llm catalog w f env
      (create_llm catalog w f env false role1 t1 n1).skip role2 t2 n2).skip = true ∧
    (∃ gm, (create_llm catalog w f env
        (create_llm catalog w f env false role1 t1 n1).skip role2 t2 n2).result =
      Except.ok (Client.chatGoogleGenerativeAI gm t2 n2 f.config.gemini_api_key)) := by
  have hm1 : is_openrouter_model catalog m1 = true := by
    simp [is_openrouter_model, hl]
  have hb1 : create_llm_body catalog w f env false m1 t1 n1 =
      ([Ev.entryLookup m1 true, Ev.freeAttempt entry.model], Except.error msg) := by
    rw [body_attempt w t1 n1 hm1 hu hk, openrouter_attempt w t1 n1 hv hl, hfail]
  have hcall1 : create_llm catalog w f env false role1 t1 n1 =
      { result := wrapFallback
          (create_gemini_llm w f.config "gemini-2.0-flash" t1 n1).2,
        skip := true,
        events := [Ev.entryLookup m1 true, Ev.freeAttempt entry.model,
          Ev.geminiAttempt "gemini-2.0-flash"] } := by
    rw [create_llm_of_body_err_credits hres1 hb1 hc]
    rfl
  have hskip1 : (create_llm catalog w f env false role1 t1 n1).skip = true := by
    rw [hcall1]
  refine ⟨hskip1, ?_, ?_, ?_, ?_⟩
  · rw [hcall1]
    simp [gemini_ok f.config t1 n1 (hgem "gemini-2.0-flash"), wrapFallback]
  · rw [hskip1]
    by_cases hfree2 : (is_openrouter_model catalog m2 && f.config.use_openrouter) = true
    · have hand := hfree2
      rw [Bool.and_eq_true] at hand
      have hb2 : create_llm_body catalog w f env true m2 t2 n2 =
          ([Ev.geminiAttempt "gemini-2.0-flash"],
            Except.ok (Client.chatGoogleGenerativeAI "gemini-2.0-flash" t2 n2
              f.config.gemini_api_key)) :=
        (body_skip w t2 n2 hand.1 hand.2 hk).trans
          (gemini_ok f.config t2 n2 (hgem "gemini-2.0-flash"))
      rw [create_llm_of_body_ok hres2 hb2]
      rfl
    · have hb2 : create_llm_body catalog w f env true m2 t2 n2 =
          ([Ev.geminiAttempt m2],
            Except.ok (Client.chatGoogleGenerativeAI m2 t2 n2
              f.config.gemini_api_key)) :=
        (body_not_free w env true t2 n2 (Bool.eq_false_iff.mpr hfree2)).trans
          (gemini_ok f.config t2 n2 (hgem m2))
      rw [create_llm_of_body_ok hres2 hb2]
      rfl
  · rw [hskip1]
    by_cases hfree2 : (is_openrouter_model catalog m2 && f.config.use_openrouter) = true
    · have hand := hfree2
      rw [Bool.and_eq_true] at hand
      have hb2 : create_llm_body catalog w f env true m2 t2 n2 =
          ([Ev.geminiAttempt "gemini-2.0-flash"],
            Except.ok (Client.chatGoogleGenerativeAI "gemini-2.0-flash" t2 n2
              f.config.gemini_api_key)) :=
        (body_skip w t2 n2 hand.1 hand.2 hk).trans
          (gemini_ok f.config t2 n2 (hgem "gemini-2.0-flash"))
      rw [create_llm_of_body_ok hres2 hb2]
    · have hb2 : create_llm_body catalog w f env true m2 t2 n2 =
          ([Ev.geminiAttempt m2],
            Except.ok (Client.chatGoogleGenerativeAI m2 t2 n2
              f.config.gemini_api_key)) :=
        (body_not_free w env true t2 n2 (Bool.eq_false_iff.mpr hfree2)).trans
          (gemini_ok f.config t2 n2 (hgem m2))
      rw [create_llm_of_body_ok hres2 hb2]
  · rw [hskip1]
    by_cases hfree2 : (is_openrouter_model catalog m2 && f.config.use_openrouter) = true
    · have hand := hfree2
      rw [Bool.and_eq_true] at hand
      have hb2 : create_llm_body catalog w f env true m2 t2 n2 =
          ([Ev.geminiAttempt "gemini-2.0-flash"],
            Except.ok (Client.chatGoogleGenerativeAI "gemini-2.0-flash" t2 n2
              f.config.gemini_api_key)) :=
        (body_skip w t2 n2 hand.1 hand.2 hk).trans
          (gemini_ok f.config t2 n2 (hgem "gemini-2.0-flash"))
      rw [create_llm_of_body_ok hres2 hb2]
      exact ⟨"gemini-2.0-flash", rfl⟩
    · have hb2 : create_llm_body catalog w f env true m2 t2 n2 =
          ([Ev.geminiAttempt m2],
            Except.ok (Client.chatGoogleGenerativeAI m2 t2 n2
              f.config.gemini_api_key)) :=
        (body_not_free w env true t2 n2 (Bool.eq_false_iff.mpr hfree2)).trans
          (gemini_ok f.config t2 n2 (hgem m2))
      rw [create_llm_of_body_ok hres2 hb2]
      exact ⟨m2, rfl⟩

/-- Witness for `credits_failure_suspends`: the spec's concrete scenario —
default configuration, free-tier constructor throwing
"402 insufficient credits", key present, Gemini always succeeding, first
role "query_generator", second role "reflection". -/
theorem credits_failure_suspends_witness :
    (create_llm FREE_MODELS
      ⟨fun _ => some ("402 insufficient credits"), fun _ => none⟩
      ⟨default_configuration, some ("PK")⟩
      (fun x => if x == "OPENROUTER_API_KEY" then some ("PK") else none)
      false "query_generator" () 2).skip = true ∧
    (create_llm FREE_MODELS
      ⟨fun _ => some ("402 insufficient credits"), fun _ => none⟩
      ⟨default_configuration, some ("PK")⟩
      (fun x => if x == "OPENROUTER_API_KEY" then some ("PK") else none)
      false "query_generator" () 2).result =
      Except.ok (Client.chatGoogleGenerativeAI "gemini-2.0-flash" () 2 none) ∧
    countFreeAttempts (create_llm FREE_MODELS
      ⟨fun _ => some ("402 insufficient credits"), fun _ => none⟩
      ⟨default_configuration, some ("PK")⟩
      (fun x => if x == "OPENROUTER_API_KEY" then some ("PK") else none)
      (create_llm FREE_MODELS
        ⟨fun _ => some ("402 insufficient credits"), fun _ => none⟩
        ⟨default_configuration, some ("PK")⟩
        (fun x => if x == "OPENROUTER_API_KEY" then some ("PK") else none)
        false "query_generator" () 2).skip "reflection" () 2).events = 0 := by
  have h := credits_failure_suspends FREE_MODELS
    ⟨fun _ => some ("402 insufficient credits"), fun _ => none⟩
    ⟨default_configuration, some ("PK")⟩
    (fun x => if x == "OPENROUTER_API_KEY" then some ("PK") else none)
    "query_generator" "reflection" "gpt-oss-20b" "gpt-oss-20b"
    "PK" "402 insufficient credits"
    ⟨"openai", "openai/gpt-oss-20b:free", 8192, true⟩ () () 2 2
    (by decide) (by decide) rfl (by decide) (by decide) (by decide)
    (by decide) (fun _ => rfl) (by decide)
  exact ⟨h.1, h.2.1, h.2.2.1⟩

/-! ## C8: reset is idempotent and re-arms exactly one free-tier attempt -/

/-- C8: `reset_openrouter_credits_flag` clears the flag, is idempotent and
is safe when the flag is already clear; and after resetting a suspended
engine, a repeat of the suspending scenario (catalog member, key present,
free-tier constructor failing with an insufficient-credits message)
invokes the free-tier constructor exactly once before the flag is set
again, the call returning the paid fallback client. -/
theorem reset_clears_and_rearms {T : Type}
    (catalog : List (String × ProviderEntry)) (w : ProviderWorld)
    (f : LLMFactory) (env : String → Option String)
    (role m k msg : String) (entry : ProviderEntry) (t : T) (n : Nat)
    (hres : resolve_requested_model f.config role = some m)
    (hl : catalogLookup catalog m = some entry)
    (hu : f.config.use_openrouter = true)
    (hk : pyTruthy (env "OPENROUTER_API_KEY") = true)
    (hv : validate_api_key f.openrouter_api_key = Except.ok k)
    (hfail : w.openai_outcome entry.model = some msg)
    (hc : is_credits_message msg = true)
    (hg : w.gemini_outcome "gemini-2.0-flash" = none) :
    (∀ b, reset_openrouter_credits_flag (reset_openrouter_credits_flag b) =
      reset_openrouter_credits_flag b) ∧
    reset_openrouter_credits_flag false = false ∧
    countFreeAttempts (create_llm catalog w f env
      (reset_openrouter_credits_flag true) role t n).events = 1 ∧
    (create_llm catalog w f env
      (reset_openrouter_credits_flag true) role t n).skip = true ∧
    (create_llm catalog w f env
        (reset_openrouter_credits_flag true) role t n).result =
      Except.ok (Client.chatGoogleGenerativeAI "gemini-2.0-flash" t n
        f.config.gemini_api_key) := by
  rw [show reset_openrouter_credits_flag true = false from rfl]
  have hm1 : is_openrouter_model catalog m = true := by
    simp [is_openrouter_model, hl]
  have hb : create_llm_body catalog w f env false m t n =
      ([Ev.entryLookup m true, Ev.freeAttempt entry.model], Except.error msg) := by
    rw [body_attempt w t n hm1 hu hk, openrouter_attempt w t n hv hl, hfail]
  have hcall : create_llm catalog w f env false role t n =
      { result := wrapFallback
          (create_gemini_llm w f.config "gemini-2.0-flash" t n).2,
        skip := true,
        events := [Ev.entryLookup m true, Ev.freeAttempt entry.model,
          Ev.geminiAttempt "gemini-2.0-flash"] } := by
    rw [create_llm_of_body_err_credits hres hb hc]
    rfl
  refine ⟨fun b => rfl, rfl, ?_, ?_, ?_⟩
  · rw [hcall]
    simp [countFreeAttempts]
  · rw [hcall]
  · rw [hcall]
    simp [gemini_ok f.config t n hg, wrapFallback]

/-- Witness for `reset_clears_and_rearms`: the concrete suspending scenario
of the spec after a reset — exactly one free-tier constructor invocation,
flag set again, paid fallback returned. -/
theorem reset_clears_and_rearms_witness :
    countFreeAttempts (create_llm FREE_MODELS
      ⟨fun _ => some ("402 insufficient credits"), fun _ => none⟩
      ⟨default_configuration, some ("PK")⟩
      (fun x => if x == "OPENROUTER_API_KEY" then some ("PK") else none)
      (reset_openrouter_credits_flag true) "query_generator" () 2).events = 1 ∧
    (create_llm FREE_MODELS
      ⟨fun _ => some ("402 insufficient credits"), fun _ => none⟩
      ⟨default_configuration, some ("PK")⟩
      (fun x => if x == "OPENROUTER_API_KEY" then some ("PK") else none)
      (reset_openrouter_credits_flag true) "query_generator" () 2).skip = true := by
  have h := reset_clears_and_rearms FREE_MODELS
    ⟨fun _ => some ("402 insufficient credits"), fun _ => none⟩
    ⟨default_configuration, some ("PK")⟩
    (fun x => if x == "OPENROUTER_API_KEY" then some ("PK") else none)
    "query_generator" "gpt-oss-20b" "PK" "402 insufficient credits"
    ⟨"openai", "openai/gpt-oss-20b:free", 8192, true⟩ () 2
    (by decide) rfl (by decide) (by decide) (by decide) (by decide)
    (by decide) (by decide)
  exact ⟨h.2.2.1, h.2.2.2.1⟩

/-! ## C10: a whitespace-only credential passes presence, fails validation -/

/-- C10: when the free-tier credential in the environment is non-empty but
whitespace-only (so the factory captured the same value at init), a
free-tier-eligible `create_llm` call passes the presence check and reaches
key validation, which raises "OPENROUTER_API_KEY environment variable
cannot be empty"; that message is classified neither as insufficient
credits nor as an authentication failure, so the call returns the paid
fallback client bound to the default model without raising and with the
skip flag left clear. -/
theorem whitespace_key_fallback {T : Type}
    (catalog : List (String × ProviderEntry)) (w : ProviderWorld)
    (f : LLMFactory) (env : String → Option String)
    (role m a : String) (t : T) (n : Nat)
    (hfk : f.openrouter_api_key = env "OPENROUTER_API_KEY")
    (henv : env "OPENROUTER_API_KEY" = some a)
    (hne : (a == "") = false)
    (hws : pyStrip a = "")
    (hres : resolve_requested_model f.config role = some m)
    (hm : is_openrouter_model catalog m = true)
    (hu : f.config.use_openrouter = true)
    (hg : w.gemini_outcome "gemini-2.0-flash" = none) :
    create_llm_body catalog w f env false m t n =
      ([], Except.error
        ("OPENROUTER_API_KEY environment variable cannot be empty")) ∧
    is_credits_message
      ("OPENROUTER_API_KEY environment variable cannot be empty") = false ∧
    is_auth_message
      ("OPENROUTER_API_KEY environment variable cannot be empty") = false ∧
    create_llm catalog w f env false role t n =
      { result := Except.ok (Client.chatGoogleGenerativeAI "gemini-2.0-flash"
          t n f.config.gemini_api_key),
        skip := false,
        events := [Ev.geminiAttempt "gemini-2.0-flash"] } := by
  have htr : pyTruthy (env "OPENROUTER_API_KEY") = true := by
    rw [henv]
    simpa [pyTruthy] using hne
  have hv : validate_api_key f.openrouter_api_key = Except.error
      ("OPENROUTER_API_KEY environment variable cannot be empty") := by
    rw [hfk, henv]
    simp [validate_api_key, pyTruthy, hne, hws]
  have hb : create_llm_body catalog w f env false m t n =
      ([], Except.error
        ("OPENROUTER_API_KEY environment variable cannot be empty")) :=
    (body_attempt w t n hm hu htr).trans
      (openrouter_validate_err catalog w m t n hv)
  refine ⟨hb, by decide, by decide, ?_⟩
  rw [create_llm_of_body_err_noncredits hres hb (by decide),
    gemini_ok f.config t n hg]
  rfl

/-- Witness for `whitespace_key_fallback`: the credential "   " (three
spaces) captured at init passes presence, validation fails, and the call
returns the default paid client with the flag clear. -/
theorem whitespace_key_fallback_witness :
    create_llm FREE_MODELS ⟨fun _ => none, fun _ => none⟩
        (LLMFactory.init default_configuration
          (fun x => if x == "OPENROUTER_API_KEY" then some ("   ") else none))
        (fun x => if x == "OPENROUTER_API_KEY" then some ("   ") else none)
        false "reflection" () 2 =
      { result := Except.ok (Client.chatGoogleGenerativeAI "gemini-2.0-flash"
          () 2 none),
        skip := false,
        events := [Ev.geminiAttempt "gemini-2.0-flash"] } :=
  (whitespace_key_fallback FREE_MODELS ⟨fun _ => none, fun _ => none⟩
    (LLMFactory.init default_configuration
      (fun x => if x == "OPENROUTER_API_KEY" then some ("   ") else none))
    (fun x => if x == "OPENROUTER_API_KEY" then some ("   ") else none)
    "reflection" "gpt-oss-20b" "   " () 2
    rfl rfl (by decide) (by decide) (by decide) (by decide) rfl rfl).2.2.2
